import Mathlib

/-!
Shallow embedding of `openfe/setup/ligandmolecule.py` and of the
`LigandAtomMapper` template-method contract exercised by
`openfe/tests/setup/test_atommapper.py`.

Modelling conventions:

* An RDKit molecule (`rdkit.Chem.Mol`) is modelled as a canonical structural
  signature (`graph`) plus an insertion-ordered property-tag list (`props`).
  `GetProp` is first-match lookup; `SetProp` replaces the value of the first
  entry with the given key in place, or appends a new entry.
* Python exceptions are modelled by the `Except PyErr` monad.
* Python's mutation of a molecule passed by reference is modelled, where a
  claim is about aliasing or mutation, by an explicit heap (`Heap`) of
  molecules addressed by `Nat` references; pure value-level functions model
  the same code where aliasing is irrelevant.
* `openfe.utils.molhashing.hashmol` is not under `src/`; it is modelled from
  the spec: the content hash is a pure function of (canonical structural
  signature, resolved name), insensitive to property tags and their order.
* Python's builtin `hash` applied to the content-hash object is modelled as a
  parameter `pyh : Hashmol → Int`: CPython guarantees determinism within a
  process but not injectivity (the hash range is finite and string hashing is
  seed-randomized), and the code nowhere assumes injectivity.
-/

/-- Property-tag bag entry list: insertion-ordered `(key, value)` pairs. -/
abbrev PropList := List (String × String)

/-- Model of `rdkit.Chem.Mol`: a canonical structural signature plus an
insertion-ordered property-tag list.  The structural signature stands for the
atom/bond/coorded graph; property tags never influence it. -/
structure RDKitMol where
  graph : String
  props : PropList
deriving DecidableEq, Inhabited

/-- First-match lookup in a property list, modelling `Mol.GetProp` (which
raises `KeyError` when the key is absent, modelled as `none`). -/
def lookupProp : PropList → String → Option String
  | [], _ => none
  | p :: rest, k => if p.1 = k then some p.2 else lookupProp rest k

/-- Replace the value of the first entry with key `k` in place, or append a
new entry, modelling `Mol.SetProp`. -/
def setPropList : PropList → String → String → PropList
  | [], k, v => [(k, v)]
  | p :: rest, k, v => if p.1 = k then (k, v) :: rest else p :: setPropList rest k v

/-- Model of `Mol.GetProp`. -/
def getProp (m : RDKitMol) (k : String) : Option String :=
  lookupProp m.props k

/-- Model of `Mol.SetProp`: mutates only the property list. -/
def setProp (m : RDKitMol) (k v : String) : RDKitMol :=
  ⟨m.graph, setPropList m.props k v⟩

/-- RDKit treats tags whose name begins with an underscore (such as `_Name`)
as private; `GetPropNames()` omits them by default.  Char 95 is `_`. -/
def isPrivateTag (k : String) : Bool :=
  match k.data with
  | [] => false
  | c :: _ => c == Char.ofNat 95

/-- Public (non-underscore-prefixed) property tags, in insertion order,
modelling the default behaviour of `Mol.GetPropNames()`. -/
def publicProps : PropList → PropList
  | [] => []
  | p :: rest => if isPrivateTag p.1 then publicProps rest else p :: publicProps rest

/-- Modelled from the spec: `openfe.__version__`, the informational version
stamp; its value never participates in the content hash. -/
def openfeVersionString : String := "0.0.1"

/-- Result of `_ensure_ofe_name`: the resolved name, whether a rename warning
was emitted (`warnings.warn`, non-fatal), and the stamped molecule. -/
structure NameResolution where
  resolvedName : String
  warned : Bool
  mol : RDKitMol
deriving DecidableEq

/-- Model of `_ensure_ofe_name` (ligandmolecule.py lines 17-39): read the
legacy `_Name` tag (missing means empty), let an `ofe-name` tag override it,
warn non-fatally when a non-empty explicit name differs from a non-empty
discovered name, fall back to the discovered name when the explicit name is
empty, and stamp the resolved name back as `ofe-name`. -/
def ensure_ofe_name (mol : RDKitMol) (name : String) : NameResolution :=
  let rdkitName0 := (getProp mol "_Name").getD ""
  let rdkitName := (getProp mol "ofe-name").getD rdkitName0
  let warned : Bool := if name ≠ "" ∧ rdkitName ≠ "" ∧ rdkitName ≠ name then true else false
  let resolved := if name = "" then rdkitName else name
  ⟨resolved, warned, setProp mol "ofe-name" resolved⟩

/-- Model of `_ensure_ofe_version` (lines 42-44): stamp the informational
version tag. -/
def ensure_ofe_version (mol : RDKitMol) : RDKitMol :=
  setProp mol "ofe-version" openfeVersionString

/-- Modelled from the spec (the canonical-signature step of
`openfe.utils.molhashing`, not under `src/`): a deterministic canonical
string depending only on the structural graph, never on property tags. -/
def canonicalSmiles (mol : RDKitMol) : String := mol.graph

/-- Modelled from the spec (`openfe.utils.molhashing.hashmol`, not under
`src/`): the content-hash object, a pure function of (canonical structural
signature, resolved name). -/
structure Hashmol where
  smiles : String
  name : String
deriving DecidableEq, Inhabited

/-- Modelled from the spec: `hashmol(mol, name)` builds the content-hash
object from the canonical signature and the resolved name. -/
def hashmol (mol : RDKitMol) (name : String) : Hashmol :=
  ⟨canonicalSmiles mol, name⟩

/-- Model of class `LigandMolecule`: the wrapped (stamped) rdkit
representation `rdkit` (source field `_rdkit`) and the content-hash object
`chash` cached at construction (source field `_hash`). -/
structure LigandMolecule where
  rdkit : RDKitMol
  chash : Hashmol
deriving DecidableEq

/-- Model of `LigandMolecule.__init__` (lines 76-80) at value level: resolve
the name, stamp `ofe-name` and `ofe-version`, keep the stamped molecule and
cache the content hash.  (Aliasing of the caller's object is modelled
separately on the heap by `initRef`.) -/
def LigandMolecule.init (rdkit : RDKitMol) (name : String) : LigandMolecule :=
  let r := ensure_ofe_name rdkit name
  let stamped := ensure_ofe_version r.mol
  ⟨stamped, hashmol stamped r.resolvedName⟩

/-- Model of the `smiles` property (lines 111-113): read from the cached
content-hash object, never from the live molecule. -/
def LigandMolecule.smiles (x : LigandMolecule) : String := x.chash.smiles

/-- Model of the `name` property (lines 115-117). -/
def LigandMolecule.name (x : LigandMolecule) : String := x.chash.name

/-- Python exceptions that the modelled code can raise. -/
inductive PyErr where
  | valueError (msg : String)
  | runtimeError (msg : String)
  | notImplementedError (msg : String)
  | stopIteration
deriving DecidableEq

/-- Model of `LigandMolecule.from_openeye` (lines 95-97): raises
`NotImplementedError` unconditionally, for any input of any type. -/
def LigandMolecule.from_openeye {α : Type} (oemol : α) (name : String) :
    Except PyErr LigandMolecule :=
  Except.error (PyErr.notImplementedError "")

/-- Model of `LigandMolecule.from_openff` (lines 106-108): raises
`NotImplementedError` unconditionally, for any input of any type. -/
def LigandMolecule.from_openff {α : Type} (openff : α) (name : String) :
    Except PyErr LigandMolecule :=
  Except.error (PyErr.notImplementedError "")

/-- An SDF record at the granularity the code manipulates it: the molblock
title line (written from `_Name` by `MolToMolBlock`), the structural block,
and the trailing `>  <key>` data fields in the order they were written. -/
structure SDFRecord where
  title : String
  graph : String
  dataFields : PropList
deriving DecidableEq

/-- An SDF string, modelled at record granularity: the `$$$$`-terminated
records it contains, in order. -/
abbrev SDFData := List SDFRecord

/-- Model of `LigandMolecule.to_sdf` (lines 125-141): one molblock for a copy
of the wrapped molecule (its title line carrying `_Name`), followed by one
data field per public property name reported by `GetPropNames()`, in
insertion order, followed by the `$$$$` terminator. -/
def LigandMolecule.to_sdf (x : LigandMolecule) : SDFData :=
  [⟨(getProp x.rdkit "_Name").getD "", x.rdkit.graph, publicProps x.rdkit.props⟩]

/-- Modelled from the spec (collaborator interface A, decode-one-from-block):
parsing one SDF record yields the molecule whose structural signature is the
block and whose property list holds `_Name` (from the title line) followed by
the data fields; a record whose structural block is empty does not parse and
the supplier yields `None` for it. -/
def parseRecord (r : SDFRecord) : Option RDKitMol :=
  if r.graph = "" then none
  else some ⟨r.graph, ("_Name", r.title) :: r.dataFields⟩

/-- Model of `Chem.SDMolSupplier` with `SetData`: the sequence of per-record
parse outcomes, in order (`none` for a record that fails to parse). -/
def sdMolSupplier (sdf : SDFData) : List (Option RDKitMol) :=
  sdf.map parseRecord

/-- Model of `LigandMolecule._from_sdf_supplier` (lines 181-199): take the
first item (an empty supplier would let `StopIteration` escape); `None`
raises `ValueError`; a second item of any kind raises `RuntimeError`;
otherwise construct with no explicit name, so the name is recovered from the
embedded tags. -/
def from_sdf_supplier (supp : List (Option RDKitMol)) : Except PyErr LigandMolecule :=
  match supp with
  | [] => Except.error PyErr.stopIteration
  | none :: _ => Except.error (PyErr.valueError "Unable to load LigandMolecule")
  | some mol :: [] => Except.ok (LigandMolecule.init mol "")
  | some _ :: _ :: _ => Except.error (PyErr.runtimeError "SDF contains more than 1 molecule")

/-- Model of `LigandMolecule.from_sdf_string` (lines 143-161): feed the
parsed record stream to `_from_sdf_supplier`. -/
def from_sdf_string (sdf : SDFData) : Except PyErr LigandMolecule :=
  from_sdf_supplier (sdMolSupplier sdf)

/-- A Python object on the other side of `LigandMolecule.__eq__`: either
another `LigandMolecule`, or an arbitrary hashable object represented by its
Python hash value. -/
inductive PyObj where
  | ligand (m : LigandMolecule)
  | other (h : Int)
deriving DecidableEq

/-- Python `hash(ᐧ)` of a `PyObj`, given the builtin hash `pyh` on
content-hash objects: `LigandMolecule.__hash__` (lines 119-120) returns
`hash(self._hash)`. -/
def PyObj.pyhash (pyh : Hashmol → Int) : PyObj → Int
  | PyObj.ligand m => pyh m.chash
  | PyObj.other h => h

/-- Model of `LigandMolecule.__hash__` (lines 119-120). -/
def ligandHash (pyh : Hashmol → Int) (x : LigandMolecule) : Int := pyh x.chash

/-- Model of `LigandMolecule.__eq__` (lines 122-123): `hash(self) ==
hash(other)`, with no type or content check on `other`. -/
def ligandEqObj (pyh : Hashmol → Int) (x : LigandMolecule) (y : PyObj) : Bool :=
  ligandHash pyh x == PyObj.pyhash pyh y

/-- Heap of rdkit molecules, modelling Python's object store where aliasing
and in-place mutation matter. -/
abbrev Heap := List RDKitMol

/-- Read the molecule at a reference (out-of-range reads give the default
molecule; the theorems only use in-range references). -/
def heapGet : Heap → Nat → RDKitMol
  | [], _ => default
  | m :: _, 0 => m
  | _ :: rest, n + 1 => heapGet rest n

/-- Overwrite the molecule at a reference in place. -/
def heapSet : Heap → Nat → RDKitMol → Heap
  | [], _, _ => []
  | _ :: rest, 0, m => m :: rest
  | x :: rest, n + 1, m => x :: heapSet rest n m

/-- A `LigandMolecule` at heap level: the reference to its wrapped molecule
(source field `_rdkit`) and the cached content hash (source field `_hash`). -/
structure LigandMoleculeRef where
  rdkitRef : Nat
  chash : Hashmol
deriving DecidableEq

/-- Model of `LigandMolecule.__init__` (lines 76-80) at heap level: the
passed molecule is stamped in place (`SetProp` mutates the caller's object)
and the instance stores the same reference — no copy is made. -/
def initRef (heap : Heap) (ref : Nat) (name : String) : Heap × LigandMoleculeRef :=
  let r := ensure_ofe_name (heapGet heap ref) name
  let stamped := ensure_ofe_version r.mol
  (heapSet heap ref stamped, ⟨ref, hashmol stamped r.resolvedName⟩)

/-- Model of `LigandMolecule.from_rdkit` (lines 86-89) at heap level: first
allocate a fresh deep copy (`Chem.Mol(rdkit)`), then run `__init__` on the
copy, so the caller's original is neither aliased nor mutated. -/
def from_rdkitRef (heap : Heap) (ref : Nat) (name : String) : Heap × LigandMoleculeRef :=
  initRef (heap ++ [heapGet heap ref]) heap.length name

/-- Model of `LigandMolecule.to_rdkit` (lines 82-84) at heap level: allocate
and return a fresh deep copy (`Chem.Mol(self._rdkit)`) of the wrapped
molecule. -/
def to_rdkitRef (heap : Heap) (m : LigandMoleculeRef) : Heap × Nat :=
  (heap ++ [heapGet heap m.rdkitRef], heap.length)

/-- Heap-level `smiles` property: read from the cached content hash, never
from the heap. -/
def LigandMoleculeRef.smiles (m : LigandMoleculeRef) : String := m.chash.smiles

/-- Heap-level `name` property. -/
def LigandMoleculeRef.name (m : LigandMoleculeRef) : String := m.chash.name

/-- A proposed atom-to-atom correspondence: pairs of (index in molecule 1,
index in molecule 2). -/
abbrev MappingProposal := List (Nat × Nat)

/-- Modelled from the spec (`openfe/setup/ligandatommapper.py` is not under
`src/`; modelled from spec section 4.2 and `test_atommapper.py`): a mapper is
its class name together with its `_mappings_generator` step; consuming the
lazy sequence that step yields either raises or produces a finite list of
proposals, and the `Except` value is the outcome of the first (and only)
consumption, so an error surfaces no later than first consumption. -/
structure LigandAtomMapper where
  className : String
  mappings_generator : RDKitMol → RDKitMol → Except PyErr (List MappingProposal)

/-- Modelled from the spec: the diagnostic message of the base class's
unimplemented generation step, identifying the class and the abstract
method. -/
def abstractMessage (cls : String) : String :=
  cls ++ " is an abstract class and cannot be used directly. Implement the method _mappings_generator in a concrete subclass."

/-- Modelled from the spec: the un-overridden base class, whose
`_mappings_generator` raises `NotImplementedError` naming the class and the
abstract method (the behaviour `test_abstract_error` pins down). -/
def LigandAtomMapper.base : LigandAtomMapper :=
  ⟨"LigandAtomMapper",
   fun _ _ => Except.error (PyErr.notImplementedError (abstractMessage "LigandAtomMapper"))⟩

/-- Re-emission of each generated item, modelling `suggest_mappings` yielding
the generator's items one by one without adding, dropping or transforming
any. -/
def yieldFrom : List MappingProposal → List MappingProposal
  | [] => []
  | x :: xs => x :: yieldFrom xs

/-- Modelled from the spec: `suggest_mappings(mol1, mol2)` performs no
matching logic of its own; it delegates to `_mappings_generator` and
re-yields whatever that step produces. -/
def LigandAtomMapper.suggest_mappings (self : LigandAtomMapper) (mol1 mol2 : RDKitMol) :
    Except PyErr (List MappingProposal) :=
  match self.mappings_generator mol1 mol2 with
  | Except.error e => Except.error e
  | Except.ok xs => Except.ok (yieldFrom xs)

/-- A concrete subclass overriding only the generation step, as in
`test_concrete_mapper`. -/
def LigandAtomMapper.mkConcrete (cls : String)
    (gen : RDKitMol → RDKitMol → Except PyErr (List MappingProposal)) : LigandAtomMapper :=
  ⟨cls, gen⟩

/-! Helper lemmas about the property-tag bag, the heap and re-emission. -/

theorem lookupProp_set_self (l : PropList) (k v : String) :
    lookupProp (setPropList l k v) k = some v := by
  induction l with
  | nil => simp [setPropList, lookupProp]
  | cons p rest ih =>
      by_cases h : p.1 = k
      · simp [setPropList, h, lookupProp]
      · simp [setPropList, h, lookupProp, ih]

theorem lookupProp_set_ne (l : PropList) (k v k2 : String) (h : k2 ≠ k) :
    lookupProp (setPropList l k v) k2 = lookupProp l k2 := by
  induction l with
  | nil => simp [setPropList, lookupProp, Ne.symm h]
  | cons p rest ih =>
      by_cases hp : p.1 = k
      · have hpk2 : p.1 ≠ k2 := by
          rw [hp]
          exact Ne.symm h
        simp [setPropList, hp, lookupProp, Ne.symm h, hpk2]
      · by_cases hq : p.1 = k2
        · simp [setPropList, hp, lookupProp, hq, h]
        · simp [setPropList, hp, lookupProp, hq, ih]

theorem lookupProp_publicProps (l : PropList) (k : String)
    (h : isPrivateTag k = false) :
    lookupProp (publicProps l) k = lookupProp l k := by
  induction l with
  | nil => simp [publicProps]
  | cons p rest ih =>
      by_cases hp : isPrivateTag p.1
      · have hne : p.1 ≠ k := by
          intro hk
          rw [hk] at hp
          rw [h] at hp
          exact Bool.false_ne_true hp
        simp [publicProps, hp, lookupProp, hne, ih]
      · by_cases hq : p.1 = k
        · simp [publicProps, hp, lookupProp, hq, h]
        · simp [publicProps, hp, lookupProp, hq, ih]

theorem yieldFrom_eq (xs : List MappingProposal) : yieldFrom xs = xs := by
  induction xs with
  | nil => rfl
  | cons x xs ih => simp [yieldFrom, ih]

theorem heapGet_append_left (l l2 : Heap) (i : Nat) (h : i < l.length) :
    heapGet (l ++ l2) i = heapGet l i := by
  induction l generalizing i with
  | nil => exact absurd h (by simp)
  | cons m rest ih =>
      cases i with
      | zero => rfl
      | succ n =>
          have : n < rest.length := by
            simpa [Nat.succ_lt_succ_iff] using h
          simpa [heapGet] using ih n this

theorem heapGet_append_concat (l : Heap) (m : RDKitMol) :
    heapGet (l ++ [m]) l.length = m := by
  induction l with
  | nil => rfl
  | cons x rest ih => simpa [heapGet] using ih

theorem heapGet_set_ne (l : Heap) (i j : Nat) (m : RDKitMol) (h : i ≠ j) :
    heapGet (heapSet l j m) i = heapGet l i := by
  induction l generalizing i j with
  | nil => simp [heapSet]
  | cons x rest ih =>
      cases j with
      | zero =>
          cases i with
          | zero => exact absurd rfl h
          | succ n => simp [heapSet, heapGet]
      | succ jn =>
          cases i with
          | zero => simp [heapSet, heapGet]
          | succ n =>
              have : n ≠ jn := by
                intro hh
                exact h (by rw [hh])
              simp [heapSet, heapGet, ih n jn this]

theorem ensure_name_explicit (mol : RDKitMol) (name : String) (h : name ≠ "") :
    (ensure_ofe_name mol name).resolvedName = name := by
  simp [ensure_ofe_name, h]

theorem ensure_name_empty (mol : RDKitMol) :
    (ensure_ofe_name mol "").resolvedName =
      (getProp mol "ofe-name").getD ((getProp mol "_Name").getD "") := by
  simp [ensure_ofe_name]

theorem init_rdkit_props (mol : RDKitMol) (name : String) :
    (LigandMolecule.init mol name).rdkit.props =
      setPropList (setPropList mol.props "ofe-name"
        (ensure_ofe_name mol name).resolvedName) "ofe-version" openfeVersionString := by
  rfl

theorem init_graph (mol : RDKitMol) (name : String) :
    (LigandMolecule.init mol name).rdkit.graph = mol.graph := by
  rfl

theorem init_chash (mol : RDKitMol) (name : String) :
    (LigandMolecule.init mol name).chash =
      ⟨mol.graph, (ensure_ofe_name mol name).resolvedName⟩ := by
  rfl

theorem init_ofe_name_prop (mol : RDKitMol) (name : String) :
    getProp (LigandMolecule.init mol name).rdkit "ofe-name" =
      some (ensure_ofe_name mol name).resolvedName := by
  have h1 : ("ofe-name" : String) ≠ "ofe-version" := by decide
  rw [getProp, init_rdkit_props]
  rw [lookupProp_set_ne _ _ _ _ h1]
  exact lookupProp_set_self _ _ _

/-! Claim theorems. -/

/-- Claim C4: name resolution at construction follows the precedence
explicit user-supplied name > `ofe-name` tag > legacy `_Name` tag > empty
string; with only the legacy tag `Foo`, no explicit name resolves to `Foo`
with no warning, while explicit name `Bar` resolves to `Bar` and sets the
non-fatal warning flag because the names differ (`ensure_ofe_name` is total,
so construction succeeds). -/
theorem name_resolution_precedence_c4 :
    (∀ (mol : RDKitMol) (name : String), name ≠ "" →
        (ensure_ofe_name mol name).resolvedName = name) ∧
    (∀ mol : RDKitMol,
        (ensure_ofe_name mol "").resolvedName =
          (getProp mol "ofe-name").getD ((getProp mol "_Name").getD "")) ∧
    (∀ g : String,
        (ensure_ofe_name ⟨g, [("_Name", "Foo")]⟩ "").resolvedName = "Foo" ∧
        (ensure_ofe_name ⟨g, [("_Name", "Foo")]⟩ "").warned = false) ∧
    (∀ g : String,
        (ensure_ofe_name ⟨g, [("_Name", "Foo")]⟩ "Bar").resolvedName = "Bar" ∧
        (ensure_ofe_name ⟨g, [("_Name", "Foo")]⟩ "Bar").warned = true) := by
  refine ⟨ensure_name_explicit, ensure_name_empty, ?_, ?_⟩
  · intro g
    constructor
    · simp [ensure_ofe_name, getProp, lookupProp]
    · simp [ensure_ofe_name, getProp, lookupProp]
  · intro g
    constructor
    · simp [ensure_ofe_name, getProp, lookupProp]
    · simp [ensure_ofe_name, getProp, lookupProp]

/-- Witness for C4: concrete instances of the precedence rule. -/
theorem name_resolution_precedence_c4_witness :
    (ensure_ofe_name ⟨"CCO", [("_Name", "Foo")]⟩ "Bar").resolvedName = "Bar" ∧
    (ensure_ofe_name ⟨"CCO", [("_Name", "Foo")]⟩ "").resolvedName = "Foo" :=
  ⟨name_resolution_precedence_c4.1 ⟨"CCO", [("_Name", "Foo")]⟩ "Bar" (by decide),
   (name_resolution_precedence_c4.2.2.1 "CCO").1⟩

/-- Claim C5: deserialization enforces the single-structure constraint: a
supplier in which zero structures parse yields `ValueError`, a supplier whose
first two records include a second structure yields an error rather than
silently using the first, and a `LigandMolecule` is produced only from a
supplier holding exactly one parsed structure. -/
theorem single_structure_constraint_c5 :
    (∀ supp : List (Option RDKitMol), supp ≠ [] → (∀ o ∈ supp, o = none) →
        from_sdf_supplier supp =
          Except.error (PyErr.valueError "Unable to load LigandMolecule")) ∧
    (∀ (m1 m2 : RDKitMol) (rest : List (Option RDKitMol)),
        from_sdf_supplier (some m1 :: some m2 :: rest) =
          Except.error (PyErr.runtimeError "SDF contains more than 1 molecule")) ∧
    (∀ (supp : List (Option RDKitMol)) (y : LigandMolecule),
        from_sdf_supplier supp = Except.ok y → ∃ m : RDKitMol, supp = [some m]) := by
  refine ⟨?_, ?_, ?_⟩
  · intro supp hne hall
    cases supp with
    | nil => exact absurd rfl hne
    | cons o rest =>
        cases o with
        | none => rfl
        | some m =>
            have hm := hall (some m) (by simp)
            simp at hm
  · intro m1 m2 rest
    rfl
  · intro supp y h
    cases supp with
    | nil => exact absurd h (by simp [from_sdf_supplier])
    | cons o rest =>
        cases o with
        | none => exact absurd h (by simp [from_sdf_supplier])
        | some m =>
            cases rest with
            | nil => exact ⟨m, rfl⟩
            | cons o2 rest2 => exact absurd h (by simp [from_sdf_supplier])

/-- Witness for C5: a supplier with one unparseable record, and one with two
parsed structures. -/
theorem single_structure_constraint_c5_witness :
    from_sdf_supplier [none] =
      Except.error (PyErr.valueError "Unable to load LigandMolecule") ∧
    from_sdf_supplier [some ⟨"CCO", []⟩, some ⟨"CCC", []⟩] =
      Except.error (PyErr.runtimeError "SDF contains more than 1 molecule") ∧
    ∃ m : RDKitMol, [some (⟨"CCO", []⟩ : RDKitMol)] = [some m] :=
  ⟨single_structure_constraint_c5.1 [none] (by decide) (by decide),
   single_structure_constraint_c5.2.1 ⟨"CCO", []⟩ ⟨"CCC", []⟩ [],
   single_structure_constraint_c5.2.2 [some ⟨"CCO", []⟩]
     (LigandMolecule.init ⟨"CCO", []⟩ "") rfl⟩

/-- Claim C6: calling `suggest_mappings` on the un-overridden base class
yields a `NotImplementedError` whose message names both the class and the
abstract generation method; in this model the `Except` value is the outcome
of the first consumption of the returned sequence, so the error surfaces no
later than first consumption. -/
theorem base_mapper_abstract_error_c6 :
    ∀ mol1 mol2 : RDKitMol,
      LigandAtomMapper.base.suggest_mappings mol1 mol2 =
        Except.error (PyErr.notImplementedError (abstractMessage "LigandAtomMapper")) ∧
      ∃ a b c : String,
        abstractMessage "LigandAtomMapper" =
          a ++ "LigandAtomMapper" ++ b ++ "_mappings_generator" ++ c := by
  intro mol1 mol2
  refine ⟨rfl, "", " is an abstract class and cannot be used directly. Implement the method ",
    " in a concrete subclass.", ?_⟩
  decide

/-- Claim C7: `suggest_mappings` performs no matching logic of its own: for
every concrete override of the generation step it re-yields exactly what the
generator produced, in order, with nothing added, dropped or transformed. -/
theorem suggest_mappings_delegates_c7 :
    ∀ (cls : String) (gen : RDKitMol → RDKitMol → Except PyErr (List MappingProposal))
      (mol1 mol2 : RDKitMol),
      (LigandAtomMapper.mkConcrete cls gen).suggest_mappings mol1 mol2 = gen mol1 mol2 := by
  intro cls gen mol1 mol2
  cases h : gen mol1 mol2 with
  | error e => simp [LigandAtomMapper.suggest_mappings, LigandAtomMapper.mkConcrete, h]
  | ok xs => simp [LigandAtomMapper.suggest_mappings, LigandAtomMapper.mkConcrete, h, yieldFrom_eq]

/-- Claim C8: the conversion factories `from_openeye` and `from_openff` raise
`NotImplementedError` unconditionally, for every input of every type, and
never produce a `LigandMolecule`. -/
theorem conversion_factories_unimplemented_c8 :
    ∀ {α : Type} (x : α) (name : String),
      LigandMolecule.from_openeye x name = Except.error (PyErr.notImplementedError "") ∧
      LigandMolecule.from_openff x name = Except.error (PyErr.notImplementedError "") ∧
      (∀ y : LigandMolecule, LigandMolecule.from_openeye x name ≠ Except.ok y) ∧
      (∀ y : LigandMolecule, LigandMolecule.from_openff x name ≠ Except.ok y) := by
  intro α x name
  refine ⟨rfl, rfl, ?_, ?_⟩ <;> intro y h <;>
    simp [LigandMolecule.from_openeye, LigandMolecule.from_openff] at h

/-- Witness for C8: the factories reject a concrete input. -/
theorem conversion_factories_unimplemented_c8_witness :
    LigandMolecule.from_openeye (42 : Nat) "lig" =
      Except.error (PyErr.notImplementedError "") ∧
    LigandMolecule.from_openff (42 : Nat) "lig" =
      Except.error (PyErr.notImplementedError "") :=
  ⟨(conversion_factories_unimplemented_c8 (42 : Nat) "lig").1,
   (conversion_factories_unimplemented_c8 (42 : Nat) "lig").2.1⟩

/-- Claim C10: `__eq__` performs no type or content check beyond Python hash
comparison: against any hashable object the result is exactly the comparison
of the Python hash values, and two instances with distinct content-hash
objects whose Python hash values collide compare equal. -/
theorem eq_is_hash_comparison_c10 :
    (∀ (pyh : Hashmol → Int) (x : LigandMolecule) (y : PyObj),
        ligandEqObj pyh x y = (ligandHash pyh x == PyObj.pyhash pyh y)) ∧
    (∀ (pyh : Hashmol → Int) (x1 x2 : LigandMolecule),
        x1.chash ≠ x2.chash → pyh x1.chash = pyh x2.chash →
        ligandEqObj pyh x1 (PyObj.ligand x2) = true) ∧
    (∀ (pyh : Hashmol → Int) (x : LigandMolecule) (h : Int),
        ligandEqObj pyh x (PyObj.other h) = (pyh x.chash == h)) := by
  refine ⟨fun _ _ _ => rfl, ?_, fun _ _ _ => rfl⟩
  intro pyh x1 x2 hne hcol
  simp [ligandEqObj, ligandHash, PyObj.pyhash, hcol]

/-- Witness for C10: under a colliding hash function, two instances with
distinct content hashes compare equal. -/
theorem eq_is_hash_comparison_c10_witness :
    (LigandMolecule.init ⟨"CCO", []⟩ "a").chash ≠
      (LigandMolecule.init ⟨"CCC", []⟩ "b").chash ∧
    ligandEqObj (fun _ => 0) (LigandMolecule.init ⟨"CCO", []⟩ "a")
      (PyObj.ligand (LigandMolecule.init ⟨"CCC", []⟩ "b")) = true :=
  ⟨by decide,
   eq_is_hash_comparison_c10.2.1 (fun _ => 0) (LigandMolecule.init ⟨"CCO", []⟩ "a")
     (LigandMolecule.init ⟨"CCC", []⟩ "b") (by decide) rfl⟩

/-- Claim C1, as stated, is false: `__eq__` compares Python hash values of
the content-hash objects, and Python's hash is not injective, so two
instances with distinct content hashes can compare equal under a hash
collision; here, under a (legitimately non-injective) builtin-hash model,
two molecules with different canonical signatures compare equal while their
content hashes differ. -/
theorem eq_iff_content_hash_c1_counterexample :
    ligandEqObj (fun _ => 0) (LigandMolecule.init ⟨"CCO", []⟩ "")
      (PyObj.ligand (LigandMolecule.init ⟨"CCC", []⟩ "")) = true ∧
    (LigandMolecule.init ⟨"CCO", []⟩ "").chash ≠
      (LigandMolecule.init ⟨"CCC", []⟩ "").chash := by
  constructor
  · decide
  · decide

/-- Claim C1 (amended): equality holds iff the Python hash values of the two
content-hash objects are equal (so equal content hashes imply equality and
hash-equality, but not conversely); the hash of an instance is the Python
hash of its content-hash object; and two instances constructed from a
structural representation and a copy of it with the same name are equal and
hash-equal regardless of incidental property-tag insertion order (only the
structural signature and the name-bearing tags matter). -/
theorem eq_hash_consistency_c1_amended :
    (∀ (pyh : Hashmol → Int) (x y : LigandMolecule),
        ligandEqObj pyh x (PyObj.ligand y) = true ↔ pyh x.chash = pyh y.chash) ∧
    (∀ (pyh : Hashmol → Int) (x y : LigandMolecule), x.chash = y.chash →
        ligandEqObj pyh x (PyObj.ligand y) = true ∧
        ligandHash pyh x = ligandHash pyh y) ∧
    (∀ (pyh : Hashmol → Int) (x : LigandMolecule), ligandHash pyh x = pyh x.chash) ∧
    (∀ (pyh : Hashmol → Int) (m1 m2 : RDKitMol) (name : String),
        m1.graph = m2.graph →
        getProp m1 "_Name" = getProp m2 "_Name" →
        getProp m1 "ofe-name" = getProp m2 "ofe-name" →
        (LigandMolecule.init m1 name).chash = (LigandMolecule.init m2 name).chash ∧
        ligandEqObj pyh (LigandMolecule.init m1 name)
          (PyObj.ligand (LigandMolecule.init m2 name)) = true ∧
        ligandHash pyh (LigandMolecule.init m1 name) =
          ligandHash pyh (LigandMolecule.init m2 name)) := by
  have hiff : ∀ (pyh : Hashmol → Int) (x y : LigandMolecule),
      ligandEqObj pyh x (PyObj.ligand y) = true ↔ pyh x.chash = pyh y.chash := by
    intro pyh x y
    simp [ligandEqObj, ligandHash, PyObj.pyhash]
  refine ⟨hiff, ?_, fun _ _ => rfl, ?_⟩
  · intro pyh x y h
    exact ⟨(hiff pyh x y).mpr (by rw [h]), by simp [ligandHash, h]⟩
  · intro pyh m1 m2 name hg hN hO
    have hres : (ensure_ofe_name m1 name).resolvedName =
        (ensure_ofe_name m2 name).resolvedName := by
      simp [ensure_ofe_name, hN, hO]
    have hch : (LigandMolecule.init m1 name).chash =
        (LigandMolecule.init m2 name).chash := by
      rw [init_chash, init_chash, hg, hres]
    exact ⟨hch, (hiff pyh _ _).mpr (by rw [hch]), by simp [ligandHash, hch]⟩

/-- Witness for C1 (amended): two structurally identical molecules whose
incidental tags are inserted in opposite orders yield equal, hash-equal
instances. -/
theorem eq_hash_consistency_c1_amended_witness :
    (LigandMolecule.init ⟨"CCO", [("a", "1"), ("b", "2")]⟩ "lig").chash =
      (LigandMolecule.init ⟨"CCO", [("b", "2"), ("a", "1")]⟩ "lig").chash ∧
    ligandEqObj (fun _ => 0) (LigandMolecule.init ⟨"CCO", [("a", "1"), ("b", "2")]⟩ "lig")
      (PyObj.ligand (LigandMolecule.init ⟨"CCO", [("b", "2"), ("a", "1")]⟩ "lig")) = true :=
  ⟨(eq_hash_consistency_c1_amended.2.2.2 (fun _ => 0) ⟨"CCO", [("a", "1"), ("b", "2")]⟩
      ⟨"CCO", [("b", "2"), ("a", "1")]⟩ "lig" rfl (by decide) (by decide)).1,
   (eq_hash_consistency_c1_amended.2.2.2 (fun _ => 0) ⟨"CCO", [("a", "1"), ("b", "2")]⟩
      ⟨"CCO", [("b", "2"), ("a", "1")]⟩ "lig" rfl (by decide) (by decide)).2.1⟩

/-- Claim C2: serialization round-trip preserves identity: for every
constructed `LigandMolecule` whose structural block is parseable,
deserializing its serialization succeeds and yields an instance with the
same content hash, whose name is recovered from the embedded `ofe-name` tag
(`_from_sdf_supplier` passes no explicit name). -/
theorem roundtrip_preserves_identity_c2 (mol : RDKitMol) (name : String)
    (hvalid : mol.graph ≠ "") :
    ∃ y : LigandMolecule,
      from_sdf_string (LigandMolecule.init mol name).to_sdf = Except.ok y ∧
      y.chash = (LigandMolecule.init mol name).chash ∧
      y.name = (LigandMolecule.init mol name).name ∧
      y.smiles = (LigandMolecule.init mol name).smiles := by
  have hgraph : (LigandMolecule.init mol name).rdkit.graph = mol.graph :=
    init_graph mol name
  have hneq : ("_Name" : String) ≠ "ofe-name" := by decide
  have hpriv : isPrivateTag "ofe-name" = false := by decide
  have hone : getProp (LigandMolecule.init mol name).rdkit "ofe-name" =
      some (ensure_ofe_name mol name).resolvedName := init_ofe_name_prop mol name
  -- the molecule recovered from the single serialized record
  have hch : (LigandMolecule.init
      (⟨(LigandMolecule.init mol name).rdkit.graph,
        ("_Name", (getProp (LigandMolecule.init mol name).rdkit "_Name").getD "") ::
          publicProps (LigandMolecule.init mol name).rdkit.props⟩ : RDKitMol) "").chash =
      (LigandMolecule.init mol name).chash := by
    rw [init_chash, init_chash]
    have hlook : getProp
        (⟨(LigandMolecule.init mol name).rdkit.graph,
          ("_Name", (getProp (LigandMolecule.init mol name).rdkit "_Name").getD "") ::
            publicProps (LigandMolecule.init mol name).rdkit.props⟩ : RDKitMol)
        "ofe-name" = some (ensure_ofe_name mol name).resolvedName := by
      show lookupProp
        (("_Name", (getProp (LigandMolecule.init mol name).rdkit "_Name").getD "") ::
          publicProps (LigandMolecule.init mol name).rdkit.props) "ofe-name" = _
      rw [lookupProp]
      rw [if_neg hneq]
      rw [lookupProp_publicProps _ _ hpriv]
      exact hone
    rw [ensure_name_empty, hlook]
    simp [hgraph]
  refine ⟨LigandMolecule.init
      ⟨(LigandMolecule.init mol name).rdkit.graph,
        ("_Name", (getProp (LigandMolecule.init mol name).rdkit "_Name").getD "") ::
          publicProps (LigandMolecule.init mol name).rdkit.props⟩ "", ?_, hch,
      by simp [LigandMolecule.name, hch], by simp [LigandMolecule.smiles, hch]⟩
  show from_sdf_supplier (sdMolSupplier (LigandMolecule.init mol name).to_sdf) = _
  have hvalid2 : (LigandMolecule.init mol name).rdkit.graph ≠ "" := by
    rw [hgraph]
    exact hvalid
  simp [LigandMolecule.to_sdf, sdMolSupplier, parseRecord, hvalid2, from_sdf_supplier]

/-- Witness for C2: round-trip of a concrete named molecule. -/
theorem roundtrip_preserves_identity_c2_witness :
    ∃ y : LigandMolecule,
      from_sdf_string (LigandMolecule.init ⟨"CCO", [("_Name", "Foo")]⟩ "lig").to_sdf =
        Except.ok y ∧
      y.chash = (LigandMolecule.init ⟨"CCO", [("_Name", "Foo")]⟩ "lig").chash ∧
      y.name = (LigandMolecule.init ⟨"CCO", [("_Name", "Foo")]⟩ "lig").name ∧
      y.smiles = (LigandMolecule.init ⟨"CCO", [("_Name", "Foo")]⟩ "lig").smiles :=
  roundtrip_preserves_identity_c2 ⟨"CCO", [("_Name", "Foo")]⟩ "lig" (by decide)

/-- Claim C3, as stated, is false: `__init__` itself mutates the molecule it
is passed (stamping the `ofe-name` and `ofe-version` tags in place) and the
constructed instance stores that same object — at a concrete input the
caller's heap cell changes and the instance holds the caller's reference. -/
theorem init_aliases_and_mutates_c3_counterexample :
    (initRef [⟨"CCO", []⟩] 0 "lig").2.rdkitRef = 0 ∧
    (initRef [⟨"CCO", []⟩] 0 "lig").1 ≠ [⟨"CCO", []⟩] := by
  constructor
  · rfl
  · decide

/-- Claim C3 (amended): `__init__` stamps the metadata tags on the molecule
it is passed and aliases it; the by-copy discipline lives in `from_rdkit`,
which first allocates a fresh copy, so it never mutates nor aliases any
pre-existing molecule; and no later method mutates a stored representation
(`to_rdkit`, the only other heap operation, leaves every existing cell
unchanged). -/
theorem construction_copy_discipline_c3_amended :
    ∀ (heap : Heap) (ref : Nat) (name : String), ref < heap.length →
      ((initRef heap ref name).2.rdkitRef = ref) ∧
      ((initRef heap ref name).1 =
        heapSet heap ref
          (ensure_ofe_version (ensure_ofe_name (heapGet heap ref) name).mol)) ∧
      (∀ i : Nat, i < heap.length →
        heapGet (from_rdkitRef heap ref name).1 i = heapGet heap i) ∧
      ((from_rdkitRef heap ref name).2.rdkitRef = heap.length) ∧
      (∀ (m : LigandMoleculeRef) (i : Nat), i < heap.length →
        heapGet (to_rdkitRef heap m).1 i = heapGet heap i) := by
  intro heap ref name href
  refine ⟨rfl, rfl, ?_, rfl, ?_⟩
  · intro i hi
    have h1 : (from_rdkitRef heap ref name).1 =
        heapSet (heap ++ [heapGet heap ref]) heap.length
          (ensure_ofe_version
            (ensure_ofe_name (heapGet (heap ++ [heapGet heap ref]) heap.length) name).mol) :=
      rfl
    rw [h1, heapGet_set_ne _ _ _ _ (Nat.ne_of_lt hi)]
    exact heapGet_append_left _ _ _ hi
  · intro m i hi
    exact heapGet_append_left _ _ _ hi

/-- Witness for C3 (amended): `from_rdkit` leaves the caller's concrete
molecule untouched and wraps a fresh reference. -/
theorem construction_copy_discipline_c3_amended_witness :
    heapGet (from_rdkitRef [⟨"CCO", []⟩] 0 "lig").1 0 = heapGet [⟨"CCO", []⟩] 0 ∧
    (from_rdkitRef [⟨"CCO", []⟩] 0 "lig").2.rdkitRef = 1 :=
  ⟨(construction_copy_discipline_c3_amended [⟨"CCO", []⟩] 0 "lig"
      (by decide)).2.2.1 0 (by decide),
   (construction_copy_discipline_c3_amended [⟨"CCO", []⟩] 0 "lig"
      (by decide)).2.2.2.1⟩

/-- Claim C9: `to_rdkit` returns a fresh, independent copy: the returned
reference is newly allocated and distinct from the wrapped one, its content
equals the wrapped molecule, mutating the returned cell (by any mutator `f`)
leaves the originating instance's wrapped cell unchanged, and the instance's
`smiles`, `name` and hash read only the content hash cached at construction,
so they never change. -/
theorem to_rdkit_isolation_c9 :
    ∀ (heap : Heap) (m : LigandMoleculeRef) (f : RDKitMol → RDKitMol),
      m.rdkitRef < heap.length →
      ((to_rdkitRef heap m).2 = heap.length) ∧
      ((to_rdkitRef heap m).2 ≠ m.rdkitRef) ∧
      (heapGet (to_rdkitRef heap m).1 (to_rdkitRef heap m).2 = heapGet heap m.rdkitRef) ∧
      (heapGet
        (heapSet (to_rdkitRef heap m).1 (to_rdkitRef heap m).2
          (f (heapGet (to_rdkitRef heap m).1 (to_rdkitRef heap m).2)))
        m.rdkitRef = heapGet heap m.rdkitRef) ∧
      (m.smiles = m.chash.smiles ∧ m.name = m.chash.name) := by
  intro heap m f hm
  refine ⟨rfl, ?_, ?_, ?_, rfl, rfl⟩
  · exact fun h => Nat.lt_irrefl _ (h ▸ hm)
  · exact heapGet_append_concat heap _
  · show heapGet (heapSet (heap ++ [heapGet heap m.rdkitRef]) heap.length _) m.rdkitRef = _
    rw [heapGet_set_ne _ _ _ _ (Nat.ne_of_lt hm)]
    exact heapGet_append_left _ _ _ hm

/-- Witness for C9: mutating the copy returned for a concrete instance
leaves the instance's wrapped cell intact. -/
theorem to_rdkit_isolation_c9_witness :
    ((to_rdkitRef [⟨"CCO", [("ofe-name", "a")]⟩] ⟨0, ⟨"CCO", "a"⟩⟩).2 ≠ 0) ∧
    heapGet
      (heapSet (to_rdkitRef [⟨"CCO", [("ofe-name", "a")]⟩] ⟨0, ⟨"CCO", "a"⟩⟩).1
        (to_rdkitRef [⟨"CCO", [("ofe-name", "a")]⟩] ⟨0, ⟨"CCO", "a"⟩⟩).2
        (setProp
          (heapGet (to_rdkitRef [⟨"CCO", [("ofe-name", "a")]⟩] ⟨0, ⟨"CCO", "a"⟩⟩).1
            (to_rdkitRef [⟨"CCO", [("ofe-name", "a")]⟩] ⟨0, ⟨"CCO", "a"⟩⟩).2)
          "mut" "1"))
      0 = heapGet [⟨"CCO", [("ofe-name", "a")]⟩] 0 :=
  ⟨(to_rdkit_isolation_c9 [⟨"CCO", [("ofe-name", "a")]⟩] ⟨0, ⟨"CCO", "a"⟩⟩
      (fun mm => setProp mm "mut" "1") (by decide)).2.1,
   (to_rdkit_isolation_c9 [⟨"CCO", [("ofe-name", "a")]⟩] ⟨0, ⟨"CCO", "a"⟩⟩
      (fun mm => setProp mm "mut" "1") (by decide)).2.2.2.1⟩
